import Mathlib

/-!
Shallow embedding of `neuralmonkey/model/sequence_split.py`.

Tensors are modelled as a static shape (a list of dimension sizes, as read
from TensorFlow's static shape information) together with a flat, row-major
data function.  `tf.reshape`, `tf.expand_dims`, `tf.stack` of identical
tensors and `tf.squeeze` all act on this representation exactly as their
row-major TensorFlow semantics prescribe: they change the shape and leave the
flat data untouched, except for `tf.stack`, which replicates entries.
-/

namespace NeuralMonkey

/-- A (symbolic) tensor: a static shape and its row-major flat contents. -/
structure Tensor where
  shape : List Nat
  data : Nat → Int

/-- Size of dimension `i` of the static shape (`t.get_shape()[i].value`). -/
def Tensor.dim (t : Tensor) (i : Nat) : Nat :=
  t.shape.getD i 0

/-- Row-major element access for a rank-2 tensor. -/
def Tensor.at2 (t : Tensor) (b j : Nat) : Int :=
  t.data (b * t.dim 1 + j)

/-- Row-major element access for a rank-3 tensor. -/
def Tensor.at3 (t : Tensor) (b i j : Nat) : Int :=
  t.data ((b * t.dim 1 + i) * t.dim 2 + j)

/-- `tf.expand_dims(x, 2)`: insert a dimension of size 1 at axis 2.  The
row-major flat contents are unchanged. -/
def expand_dims_axis2 (t : Tensor) : Tensor :=
  { shape := t.shape.take 2 ++ 1 :: t.shape.drop 2
    data := t.data }

/-- `tf.stack(n * [x], axis=2)` for a rank-3 `x` of shape `[s0, s1, s2]`:
stack `n` copies of `x` along a new axis 2, producing shape `[s0, s1, n, s2]`
with `result[b, t, k, d] = x[b, t, d]`.  In row-major flat terms the entry at
flat index `i` comes from `x` at flat index `(i / (n * s2)) * s2 + i % s2`. -/
def stack_copies_axis2 (t : Tensor) (n : Nat) : Tensor :=
  { shape := t.shape.take 2 ++ n :: t.shape.drop 2
    data := fun i => t.data ((i / (n * t.dim 2)) * t.dim 2 + i % t.dim 2) }

/-- `tf.squeeze(x, axis=2)`: remove dimension 2 from the shape.  TensorFlow
requires the removed dimension to equal 1; every use below is under a
`1 ≤ factor` hypothesis which guarantees this.  Flat contents unchanged. -/
def squeeze_axis2 (t : Tensor) : Tensor :=
  { shape := t.shape.eraseIdx 2
    data := t.data }

/-- `split_by_factor(tensor_3d, factor)` from the source: reads
`batch_size = tf.shape(...)[0]`, `max_time = tf.shape(...)[1]`,
`state_dim = tensor_3d.get_shape()[2].value`, and returns
`tf.reshape(tensor_3d, [batch_size, max_time * factor, state_dim // factor])`.
`tf.reshape` reinterprets the same row-major flat data under the new shape;
`//` is integer floor division (`Nat` division here, all sizes being
nonnegative). -/
def split_by_factor (tensor_3d : Tensor) (factor : Nat) : Tensor :=
  { shape := [tensor_3d.dim 0, tensor_3d.dim 1 * factor, tensor_3d.dim 2 / factor]
    data := tensor_3d.data }

/-- The `TemporalStateful` capability consumed from `parent`: a rank-3
states tensor `[batch, time, features]`, a rank-2 mask `[batch, time]`, and
the set of model-part identities returned by `parent.get_dependencies()`
(model parts are identified by natural numbers). -/
structure TemporalStateful where
  temporal_states : Tensor
  temporal_mask : Tensor
  get_dependencies : Finset Nat

/-- The attributes a (hypothetically completed) `SequenceSplitter` instance
carries: its own model-part identity `uid` (for `set([self])`), the parent,
the factor, and the two projection attributes assigned in `__init__`. -/
structure SequenceSplitter where
  uid : Nat
  parent : TemporalStateful
  factor : Nat
  projection_size : Option Nat
  activation : Option (Int → Int)

/-- Python truthiness of `self.projection_size` (an `int`-or-`None` value):
`None` and `0` are falsy. -/
def truthy : Option Nat → Bool
  | none => false
  | some n => n ≠ 0

/-- `tf.layers.dense(states, units, activation=act)` over the feature axis of
a rank-3 tensor, with explicit learned parameters `kernel` and `bias`:
`out[b, t, u] = act(Σ_f states[b, t, f] * kernel[f, u] + bias[u])`. -/
def dense (t : Tensor) (units : Nat) (act : Option (Int → Int))
    (kernel : Nat → Nat → Int) (bias : Nat → Int) : Tensor :=
  { shape := [t.dim 0, t.dim 1, units]
    data := fun i =>
      let b := i / (t.dim 1 * units)
      let rest := i % (t.dim 1 * units)
      let ti := rest / units
      let u := rest % units
      let z := (List.range (t.dim 2)).foldl
        (fun acc f => acc + t.at3 b ti f * kernel f u) 0 + bias u
      match act with
      | some a => a z
      | none => z }

/-- Body of the `temporal_states` property (the code under the caching
decorator).  Mirrors the source statement for statement:
`states = self.parent.temporal_states`; if `self.projection_size` is truthy,
`states = tf.layers.dense(states, self.projection_size,
activation=self.activation)`; finally
`return split_by_factor(self.parent.temporal_states, self.factor)` — note
the return reshapes the original parent tensor, not the local `states`.
The learned parameters of the optional dense layer are passed in as
`kernel`/`bias`. -/
def SequenceSplitter.temporal_states (s : SequenceSplitter)
    (kernel : Nat → Nat → Int) (bias : Nat → Int) : Tensor :=
  let states := s.parent.temporal_states
  let states :=
    if truthy s.projection_size then
      dense states (s.projection_size.getD 0) s.activation kernel bias
    else
      states
  split_by_factor s.parent.temporal_states s.factor

/-- Body of the `temporal_mask` property:
`double_mask = tf.stack(self.factor * [tf.expand_dims(self.parent.temporal_mask, 2)], axis=2)`;
`return tf.squeeze(split_by_factor(double_mask, self.factor), axis=2)`. -/
def SequenceSplitter.temporal_mask (s : SequenceSplitter) : Tensor :=
  let double_mask :=
    stack_copies_axis2 (expand_dims_axis2 s.parent.temporal_mask) s.factor
  squeeze_axis2 (split_by_factor double_mask s.factor)

/-- A `FeedDict` maps placeholder names to fed values. -/
def FeedDict : Type := List (String × Int)

/-- A dataset batch: named series of values (contents are irrelevant to this
component). -/
structure Dataset where
  series : List (String × List Int)

/-- `feed_dict(self, dataset, train)` from the source: `return {}`. -/
def SequenceSplitter.feed_dict (s : SequenceSplitter)
    (dataset : Dataset) (train : Bool) : FeedDict :=
  []

/-- `get_dependencies(self)` from the source:
`to_return = set([self])`; `to_return = to_return.union(self.parent.get_dependencies())`;
`return to_return`. -/
def SequenceSplitter.get_dependencies (s : SequenceSplitter) : Finset Nat :=
  let to_return : Finset Nat := {s.uid}
  let to_return := to_return ∪ s.parent.get_dependencies
  to_return

/-- The observable model-graph state: the sequence of component names
registered so far. -/
structure Graph where
  registered : List String

/-- Modelled from the spec: `ModelPart.__init__` (defined in
`neuralmonkey.model.model_part`, which is not part of the sources) —
"Side effect: registers itself as a named part of the model graph".
Registration appends the component's name to the graph's registry. -/
def registerModelPart (g : Graph) (nm : String) : Graph :=
  { registered := g.registered ++ [nm] }

/-- The Python exceptions that the constructor's statements can raise:
`NameError` for an unbound name, and the `ValueError` raised by the
divisibility check. -/
inductive PyError where
  | nameError (nm : String)
  | valueError (msg : String)

/-- The `ValueError` message built at lines 37-40 of the source (the two
`format` holes filled in). -/
def divisibilityMessage (state_dim factor : Nat) : String :=
  "Dimension of the parent temporal stateful (" ++ toString state_dim ++
    ") must be dividable by the given factor (" ++ toString factor ++ ")."

/-- All names resolvable at the statement `self.activation = activation`
inside `SequenceSplitter.__init__`: the function's parameters and local
bindings (`self`, `parent`, `factor`, `projection_size`,
`projection_activation`) and the module-level bindings of
`sequence_split.py` (its imports and its two top-level definitions).  No
Python builtin is named `activation` either, so this list is exhaustive for
that lookup. -/
def initScopeNames : List String :=
  ["self", "parent", "factor", "projection_size", "projection_activation",
   "Callable", "Set", "tf", "check_argument_types", "tensor", "Dataset",
   "ModelPart", "FeedDict", "TemporalStateful", "SequenceSplitter",
   "split_by_factor"]

/-- `SequenceSplitter.__init__`, statement for statement.  It returns the
model-graph state as it stands when the constructor returns or raises,
together with either the constructed instance or the exception raised:

1. `check_argument_types()` — succeeds for arguments of the annotated
   types, which this embedding's own types already enforce;
2. `ModelPart.__init__(self, name="sequence_split", ...)` — registers the
   component name in the model graph (modelled from the spec, see
   `registerModelPart`);
3. `self.parent = parent`, `self.factor = factor`,
   `self.projection_size = projection_size` — plain attribute writes on the
   instance under construction, no observable graph effect;
4. `self.activation = activation` — Python resolves the name `activation`;
   it is bound neither locally nor at module level (see `initScopeNames`),
   so this statement raises `NameError`;
5. only then would `state_dim = parent.temporal_states.get_shape()[2].value`
   be read and the divisibility `ValueError` possibly raised.

The first branch below (name found) is unreachable, since
`initScopeNames.contains "activation"` is `false`; the instance built there
is immaterial (it binds `self.activation` to `projection_activation`, which
is what the surrounding code evidently intends the statement to do). -/
def SequenceSplitter.init (g : Graph) (parent : TemporalStateful)
    (factor : Nat) (projection_size : Option Nat)
    (projection_activation : Option (Int → Int)) :
    Graph × Except PyError SequenceSplitter :=
  let g := registerModelPart g "sequence_split"
  if initScopeNames.contains "activation" then
    let state_dim := parent.temporal_states.dim 2
    if state_dim % factor ≠ 0 then
      (g, Except.error (PyError.valueError (divisibilityMessage state_dim factor)))
    else
      (g, Except.ok
        { uid := g.registered.length
          parent := parent
          factor := factor
          projection_size := projection_size
          activation := projection_activation })
  else
    (g, Except.error (PyError.nameError "activation"))

/-- Modelled from the spec: the `@tensor` caching decorator comes from
`neuralmonkey.decorators`, which is not part of the sources; the spec says
"derived tensors are computed lazily on first access and cached for the
lifetime of the graph (memoized property semantics)" and "compute on first
access, store, return stored value on subsequent access".  A `Memo` is the
per-property cache cell. -/
structure Memo (α : Type) where
  cache : Option α

/-- One property access against the cache: returns the value, the updated
cache, and how many times the underlying computation ran during this
access (0 when served from the cache, 1 on first computation). -/
def Memo.access {α : Type} (m : Memo α) (compute : Unit → α) :
    α × Memo α × Nat :=
  match m.cache with
  | some v => (v, m, 0)
  | none =>
    let v := compute ()
    (v, { cache := some v }, 1)

/-- A concrete parent used as witness input: the spec's scenario
B=2, T=3, F=4, with mask rows `[1, 1, 0]` (flat row-major index `i`
corresponds to `(b, t) = (i / 3, i % 3)`). -/
def exampleParent : TemporalStateful :=
  { temporal_states := { shape := [2, 3, 4], data := fun i => Int.ofNat i }
    temporal_mask := { shape := [2, 3], data := fun i => if i % 3 = 2 then 0 else 1 }
    get_dependencies := {7, 9} }

/-- A concrete parent with F=5 (not divisible by factor 2). -/
def exampleParent5 : TemporalStateful :=
  { temporal_states := { shape := [2, 3, 5], data := fun i => Int.ofNat i }
    temporal_mask := { shape := [2, 3], data := fun i => if i % 3 = 2 then 0 else 1 }
    get_dependencies := {7, 9} }

/-- A concrete splitter over `exampleParent` with factor 2 and no
projection. -/
def exampleSplitter : SequenceSplitter :=
  { uid := 1
    parent := exampleParent
    factor := 2
    projection_size := none
    activation := none }

/-- Concrete (zero) learned parameters for the optional dense layer. -/
def zeroKernel : Nat → Nat → Int := fun _ _ => 0

/-- Concrete (zero) bias for the optional dense layer. -/
def zeroBias : Nat → Int := fun _ => 0

/-- An empty cache cell for a tensor-valued property. -/
def emptyMemo : Memo Tensor := { cache := none }

/-- Helper: the `temporal_states` body always returns
`split_by_factor(self.parent.temporal_states, self.factor)` — the local
projected `states` variable is dropped. -/
theorem temporal_states_eq_split (s : SequenceSplitter)
    (kernel : Nat → Nat → Int) (bias : Nat → Int) :
    s.temporal_states kernel bias
      = split_by_factor s.parent.temporal_states s.factor := rfl

/-- C2: for every argument combination (any parent, any factor, with or
without projection arguments), `SequenceSplitter.__init__` raises a
`NameError` at the statement `self.activation = activation` (the parameter
is named `projection_activation` and no name `activation` is in scope),
before the feature-divisibility check is reached, so construction never
completes successfully and never yields the `ValueError`. -/
theorem init_always_raises_name_error (g : Graph) (parent : TemporalStateful)
    (factor : Nat) (projection_size : Option Nat)
    (projection_activation : Option (Int → Int)) :
    (SequenceSplitter.init g parent factor projection_size
        projection_activation).2
      = Except.error (PyError.nameError "activation") := rfl

/-- C1: evaluation of the constructor at a parent whose feature dimension
(4) IS divisible by the factor (2): the claim says no error is raised for
such inputs and that the configuration `ValueError` is the only error kind,
but the code raises `NameError "activation"` here (and on every other
input), so the `ValueError` path is unreachable. -/
theorem init_name_error_even_when_divisible :
    (SequenceSplitter.init { registered := [] } exampleParent 2 none none).2
        = Except.error (PyError.nameError "activation")
      ∧ exampleParent.temporal_states.dim 2 % 2 = 0 :=
  ⟨rfl, rfl⟩

/-- C3: for a splitter over a parent with states of shape `[B, T, F]` and
mask of shape `[B, T]`, with `1 ≤ factor` and `F % factor = 0`, the
`temporal_states` tensor has shape `[B, T * factor, F / factor]` and the
`temporal_mask` tensor has shape `[B, T * factor]`. -/
theorem temporal_shapes (s : SequenceSplitter) (B T F : Nat)
    (kernel : Nat → Nat → Int) (bias : Nat → Int)
    (hs : s.parent.temporal_states.shape = [B, T, F])
    (hm : s.parent.temporal_mask.shape = [B, T])
    (hf : 1 ≤ s.factor) (hdiv : F % s.factor = 0) :
    (s.temporal_states kernel bias).shape = [B, T * s.factor, F / s.factor]
      ∧ s.temporal_mask.shape = [B, T * s.factor] := by
  constructor
  · rw [temporal_states_eq_split]
    simp [split_by_factor, Tensor.dim, hs]
  · simp [SequenceSplitter.temporal_mask, squeeze_axis2, split_by_factor,
      stack_copies_axis2, expand_dims_axis2, Tensor.dim, hm, List.eraseIdx]

/-- Witness for C3: the spec's concrete scenario B=2, T=3, F=4, factor=2
gives `temporal_states` shape `[2, 6, 2]` and `temporal_mask` shape
`[2, 6]`. -/
theorem temporal_shapes_witness :
    (exampleSplitter.temporal_states zeroKernel zeroBias).shape = [2, 6, 2]
      ∧ exampleSplitter.temporal_mask.shape = [2, 6] :=
  temporal_shapes exampleSplitter 2 3 4 zeroKernel zeroBias rfl rfl
    (by decide) (by decide)

/-- C4: for every batch index `b < B` and original timestep `t < T`, each of
the `factor` consecutive positions `t * factor + k` (with `k < factor`) of
the output `temporal_mask` equals the parent mask value at `(b, t)`: mask
values are only replicated, in the row-major order in which the reshape
interleaves the factor sub-positions of each original timestep. -/
theorem temporal_mask_replication (s : SequenceSplitter) (B T b t k : Nat)
    (hm : s.parent.temporal_mask.shape = [B, T])
    (hb : b < B) (ht : t < T) (hk : k < s.factor) :
    s.temporal_mask.at2 b (t * s.factor + k)
      = s.parent.temporal_mask.at2 b t := by
  have hfpos : 0 < s.factor := Nat.lt_of_le_of_lt (Nat.zero_le k) hk
  have key : (b * (T * s.factor) + (t * s.factor + k)) / s.factor
      = b * T + t := by
    have h1 : b * (T * s.factor) + (t * s.factor + k)
        = k + (b * T + t) * s.factor := by ring
    rw [h1, Nat.add_mul_div_right _ _ hfpos, Nat.div_eq_of_lt hk,
      Nat.zero_add]
  simp [SequenceSplitter.temporal_mask, Tensor.at2, squeeze_axis2,
    split_by_factor, stack_copies_axis2, expand_dims_axis2, Tensor.dim, hm,
    key, Nat.mod_one]

/-- Witness for C4: in the concrete scenario, output mask position
`t * factor + k = 2 * 2 + 1 = 5` of batch row 0 equals the parent mask at
`(0, 2)`. -/
theorem temporal_mask_replication_witness :
    exampleSplitter.temporal_mask.at2 0 (2 * exampleSplitter.factor + 1)
      = exampleSplitter.parent.temporal_mask.at2 0 2 :=
  temporal_mask_replication exampleSplitter 2 3 0 2 1 rfl (by decide)
    (by decide) (by decide)

/-- C5: whatever `projection_size` and `projection_activation` (and even
whatever learned parameters) are configured, the value returned by
`temporal_states` is `split_by_factor` applied to the original, unprojected
parent tensor — identical to the result with no projection configured: the
projection is dead code with respect to the returned value. -/
theorem temporal_states_ignores_projection (s : SequenceSplitter) (ps : Nat)
    (act : Option (Int → Int)) (kernel : Nat → Nat → Int) (bias : Nat → Int) :
    SequenceSplitter.temporal_states
        { s with projection_size := some ps, activation := act } kernel bias
      = split_by_factor s.parent.temporal_states s.factor
    ∧ SequenceSplitter.temporal_states
        { s with projection_size := some ps, activation := act } kernel bias
      = SequenceSplitter.temporal_states
          { s with projection_size := none, activation := none }
          zeroKernel zeroBias :=
  ⟨rfl, rfl⟩

/-- C6 counterexample: a construction that fails (here with the `NameError`;
the divisibility check at F=5, factor=2 would also fail) nevertheless leaves
the model-graph name registration of `ModelPart.__init__` behind: starting
from an empty graph, after the failed construction the registry contains
"sequence_split", contradicting the claim that no partial component state
persists. -/
theorem init_failure_leaves_name_registered :
    (SequenceSplitter.init { registered := [] } exampleParent5 2 none none).2
        = Except.error (PyError.nameError "activation")
      ∧ "sequence_split" ∈ (SequenceSplitter.init { registered := [] }
          exampleParent5 2 none none).1.registered :=
  ⟨rfl, by decide⟩

/-- C6 (amended): construction never completes, and whenever it fails the
name registration performed by `ModelPart.__init__` at the start of
construction persists in the model graph: the registry gains exactly
"sequence_split" (no tensor is created — the derived tensors are lazy and
the constructor touches none). -/
theorem init_registration_persists_on_failure (g : Graph)
    (parent : TemporalStateful) (factor : Nat) (ps : Option Nat)
    (pa : Option (Int → Int)) :
    (SequenceSplitter.init g parent factor ps pa).1.registered
        = g.registered ++ ["sequence_split"]
      ∧ ∀ s : SequenceSplitter,
          (SequenceSplitter.init g parent factor ps pa).2 ≠ Except.ok s := by
  refine ⟨rfl, fun s h => ?_⟩
  exact Except.noConfusion h

/-- C7: membership in `get_dependencies()` is exactly: being the splitter
itself, or belonging to the parent's full dependency set. -/
theorem get_dependencies_is_self_union_parent (s : SequenceSplitter)
    (x : Nat) :
    x ∈ s.get_dependencies ↔ x = s.uid ∨ x ∈ s.parent.get_dependencies := by
  simp [SequenceSplitter.get_dependencies]

/-- C8: `feed_dict` returns the empty mapping for every dataset and both
values of the train flag. -/
theorem feed_dict_returns_empty (s : SequenceSplitter) (dataset : Dataset)
    (train : Bool) :
    s.feed_dict dataset train = [] := rfl

/-- C9: for a rank-3 tensor of shape `[B, T, F]` with positive `T`, `F`,
`factor` and `F % factor = 0`, the per-batch-row element count is preserved
by `split_by_factor`: `T * F` equals the product of the output's time and
feature dimensions `(T * factor) * (F / factor)` (with `//` floor
division). -/
theorem split_by_factor_preserves_elements (t : Tensor) (B T F factor : Nat)
    (h : t.shape = [B, T, F]) (hT : 0 < T) (hF : 0 < F) (hfac : 0 < factor)
    (hdiv : F % factor = 0) :
    T * F = (split_by_factor t factor).dim 1
        * (split_by_factor t factor).dim 2 := by
  simp [split_by_factor, Tensor.dim, h]
  rw [Nat.mul_assoc, Nat.mul_div_cancel' (Nat.dvd_of_mod_eq_zero hdiv)]

/-- Witness for C9: T=3, F=4, factor=2 gives 3 * 4 = 6 * 2. -/
theorem split_by_factor_preserves_elements_witness :
    3 * 4 = (split_by_factor exampleParent.temporal_states 2).dim 1
        * (split_by_factor exampleParent.temporal_states 2).dim 2 :=
  split_by_factor_preserves_elements exampleParent.temporal_states 2 3 4 2
    rfl (by decide) (by decide) (by decide) (by decide)

/-- C10: with an initially empty cache cell per property, a second access
to `temporal_states` (and likewise `temporal_mask`) returns the identical
value computed on the first access, and runs the underlying computation
zero times (memoized property semantics). -/
theorem temporal_tensors_memoized (s : SequenceSplitter)
    (kernel : Nat → Nat → Int) (bias : Nat → Int)
    (m m' : Memo Tensor) (h : m.cache = none) (h' : m'.cache = none) :
    ((m.access fun _ => s.temporal_states kernel bias).2.1.access
        fun _ => s.temporal_states kernel bias).1
      = (m.access fun _ => s.temporal_states kernel bias).1
    ∧ ((m.access fun _ => s.temporal_states kernel bias).2.1.access
        fun _ => s.temporal_states kernel bias).2.2 = 0
    ∧ ((m'.access fun _ => s.temporal_mask).2.1.access
        fun _ => s.temporal_mask).1
      = (m'.access fun _ => s.temporal_mask).1
    ∧ ((m'.access fun _ => s.temporal_mask).2.1.access
        fun _ => s.temporal_mask).2.2 = 0 := by
  obtain ⟨c⟩ := m
  obtain ⟨c'⟩ := m'
  cases c with
  | some v => exact Option.noConfusion h
  | none =>
    cases c' with
    | some v => exact Option.noConfusion h'
    | none => exact ⟨rfl, rfl, rfl, rfl⟩

/-- Witness for C10: the memoization behavior at the concrete splitter with
initially empty caches. -/
theorem temporal_tensors_memoized_witness :
    ((emptyMemo.access
        fun _ => exampleSplitter.temporal_states zeroKernel zeroBias).2.1.access
        fun _ => exampleSplitter.temporal_states zeroKernel zeroBias).1
      = (emptyMemo.access
        fun _ => exampleSplitter.temporal_states zeroKernel zeroBias).1
    ∧ ((emptyMemo.access
        fun _ => exampleSplitter.temporal_states zeroKernel zeroBias).2.1.access
        fun _ => exampleSplitter.temporal_states zeroKernel zeroBias).2.2 = 0
    ∧ ((emptyMemo.access fun _ => exampleSplitter.temporal_mask).2.1.access
        fun _ => exampleSplitter.temporal_mask).1
      = (emptyMemo.access fun _ => exampleSplitter.temporal_mask).1
    ∧ ((emptyMemo.access fun _ => exampleSplitter.temporal_mask).2.1.access
        fun _ => exampleSplitter.temporal_mask).2.2 = 0 :=
  temporal_tensors_memoized exampleSplitter zeroKernel zeroBias emptyMemo
    emptyMemo rfl rfl

end NeuralMonkey
